import Mathlib

/-!
Shallow embedding of the ledger engine of `src/contable19.py`
(class `ContabilidadApp` plus the report-building loops of `ContabilidadGUI`).

Modelling conventions, each justified by the source:

* Monetary amounts (`REAL` column `monto`, Python floats) are embedded as
  exact rationals `ℚ`; the epsilon comparisons of the source
  (`> 0.009`, `< 0.01`) are kept verbatim as rational comparisons.
* The SQLite tables `Cuentas` and `Transacciones` are embedded as Lean lists
  kept in insertion order (SQLite rowid order).  `INTEGER PRIMARY KEY`
  assignment is embedded as an explicit fresh-id counter.
* The `fecha` timestamp (`datetime.datetime.now()` formatted as
  `"%Y-%m-%d %H:%M:%S"`, compared lexicographically by `ORDER BY`) is
  embedded as a `Nat` passed explicitly to the operations that stamp it.
* Python's `str.strip()` / `str.upper()` are embedded as `pyStrip` /
  `pyUpper` below, and `x.strip() or None` as `refOpcional`.
* The connection made by `sqlite3.connect` never executes
  `PRAGMA foreign_keys = ON`, and SQLite leaves foreign-key enforcement OFF
  by default; therefore the declared `FOREIGN KEY` clauses of
  `Transacciones` are never enforced at runtime, and an `INSERT` whose
  account ids do not exist in `Cuentas` succeeds.  The embedding of
  `registrar_transaccion` reflects this: the insert is unconditional once
  the two explicit Python checks pass.
* The in-memory cache `nombre_a_id` is maintained in lockstep with the
  `Cuentas` table by `crear_cuenta`/`eliminar_cuenta`; it is embedded as the
  derived lookup `nombre_a_id` over the account list.
* Success messages built by f-string interpolation are reproduced with
  string concatenation; `sqlite3` error branches that concrete runs cannot
  hit (the statements are well formed) are not represented.
-/

/- Batteries marks the `Rat` arithmetic operations `@[irreducible]`, which
blocks elaborator-level evaluation of decidable propositions about concrete
rational values.  Restore the default reducibility so that `decide` can
evaluate the ledger computations; kernel checking is unaffected. -/
set_option allowUnsafeReducibility true in
attribute [semireducible] Rat.add Rat.sub Rat.mul Rat.div Rat.inv Rat.neg Rat.blt

namespace Contable

/-- Python `str.strip()` on the left of a character list. -/
def quitarEspaciosIzq : List Char → List Char
  | [] => []
  | ch :: r => if ch.isWhitespace then quitarEspaciosIzq r else ch :: r

/-- Python `str.strip()`: drop whitespace from both ends. -/
def pyStrip (s : String) : String :=
  ⟨(quitarEspaciosIzq (quitarEspaciosIzq s.data).reverse).reverse⟩

/-- Python `str.upper()` (ASCII case mapping, which covers the names used). -/
def pyUpper (s : String) : String :=
  ⟨s.data.map Char.toUpper⟩

/-- A row of the `Cuentas` table. -/
structure Cuenta where
  id : Nat
  nombre : String
  tipo : String
  deriving Repr, DecidableEq

/-- A row of the `Transacciones` table. -/
structure Transaccion where
  id : Nat
  fecha : Nat
  descripcion : String
  debito : Nat
  credito : Nat
  monto : ℚ
  refDoc : Option String
  refBanco : Option String
  deriving Repr, DecidableEq

/-- The persistent state of `ContabilidadApp`: the two tables plus the
fresh-id counters standing for SQLite `INTEGER PRIMARY KEY` assignment. -/
structure Estado where
  cuentas : List Cuenta
  transacciones : List Transaccion
  nextCuentaId : Nat
  nextTransId : Nat
  deriving Repr, DecidableEq

/-- `self.tipos_cuenta`. -/
def tipos_cuenta : List String :=
  ["ACTIVO", "PASIVO", "CAPITAL", "INGRESO", "GASTO"]

/-- `self.tipos_saldo_acreedor`. -/
def tipos_saldo_acreedor : List String :=
  ["PASIVO", "CAPITAL", "INGRESO"]

/-- The dictionary `self.nombre_a_id` (kept synchronized with `Cuentas`),
as the induced lookup over the table. -/
def nombre_a_id (st : Estado) (nombre : String) : Option Nat :=
  (st.cuentas.find? (fun c => c.nombre = nombre)).map (fun c => c.id)

/-- `ContabilidadApp.crear_cuenta`. -/
def crear_cuenta (st : Estado) (nombre tipo : String) : Estado × Bool × String :=
  let nombre2 := pyUpper (pyStrip nombre)
  let tipo2 := pyUpper (pyStrip tipo)
  if nombre2 = "" then
    (st, false, "El nombre de la cuenta no puede estar vacío.")
  else if ¬ (tipo2 ∈ tipos_cuenta) then
    (st, false, "Tipo de cuenta inválido.")
  else if st.cuentas.any (fun c => c.nombre = nombre2) then
    -- UNIQUE constraint on Cuentas.nombre: sqlite3.IntegrityError branch
    (st, false, "Error de integridad: Ya existe una cuenta con ese nombre o ID de cuenta inválido.")
  else
    ({ st with
        cuentas := st.cuentas ++ [⟨st.nextCuentaId, nombre2, tipo2⟩],
        nextCuentaId := st.nextCuentaId + 1 },
      true, "Cuenta \x27" ++ nombre2 ++ "\x27 (" ++ tipo2 ++ ") creada con éxito.")

/-- `ContabilidadApp.eliminar_cuenta`. -/
def eliminar_cuenta (st : Estado) (cuenta_id : Nat) : Estado × Bool × String :=
  if st.transacciones.any (fun t => t.debito = cuenta_id || t.credito = cuenta_id) then
    (st, false, "Error: No se puede eliminar la cuenta porque tiene transacciones registradas.")
  else
    ({ st with cuentas := st.cuentas.filter (fun c => c.id != cuenta_id) },
      true, "Cuenta eliminada con éxito.")

/-- `x.strip() or None`: an empty (after stripping) reference is stored absent. -/
def refOpcional (s : String) : Option String :=
  if pyStrip s = "" then none else some (pyStrip s)

/-- `ContabilidadApp.registrar_transaccion`.  The two explicit validations of
the source are the only ones that can fail: the `INSERT` itself always
succeeds because SQLite foreign-key enforcement is off (see header note).
On success the error component is `none`, as in the source. -/
def registrar_transaccion (st : Estado) (fecha : Nat) (descripcion : String)
    (debito_id credito_id : Nat) (monto : ℚ) (ref_doc ref_banco : String) :
    Estado × Bool × Option String :=
  if debito_id = credito_id then
    (st, false, some "Error: Las cuentas de Débito y Crédito no pueden ser las mismas.")
  else if monto ≤ 0 then
    (st, false, some "Error: El monto de la transacción debe ser positivo.")
  else
    ({ st with
        transacciones := st.transacciones ++
          [⟨st.nextTransId, fecha, pyStrip descripcion, debito_id, credito_id, monto,
            refOpcional ref_doc, refOpcional ref_banco⟩],
        nextTransId := st.nextTransId + 1 },
      true, none)

/-- `ContabilidadApp.eliminar_transaccion`.  The `DELETE ... WHERE id = ?`
succeeds regardless of whether a row matched, so the source always reports
success. -/
def eliminar_transaccion (st : Estado) (transaccion_id : Nat) : Estado × Bool × String :=
  ({ st with transacciones := st.transacciones.filter (fun t => t.id != transaccion_id) },
    true, "Transacción ID " ++ toString transaccion_id ++ " eliminada con éxito.")

/-- Insertion into a sorted list, the embedding of SQL `ORDER BY`
(tie order among equal keys is unspecified by SQLite). -/
def insertarOrdenado (le : α → α → Bool) (x : α) : List α → List α
  | [] => [x]
  | y :: r => if le x y then x :: y :: r else y :: insertarOrdenado le x r

/-- Sorting by insertion, the embedding of SQL `ORDER BY`. -/
def ordenarPor (le : α → α → Bool) : List α → List α
  | [] => []
  | x :: r => insertarOrdenado le x (ordenarPor le r)

/-- A row of the `obtener_transacciones_diario` query (journal joined with
the two account names). -/
structure FilaDiario where
  id : Nat
  fecha : Nat
  descripcion : String
  monto : ℚ
  nombre_debito : String
  nombre_credito : String
  refDoc : Option String
  refBanco : Option String
  deriving Repr, DecidableEq

/-- `ContabilidadApp.obtener_transacciones_diario`: inner `JOIN` with
`Cuentas` on both legs (rows whose account ids do not resolve are dropped by
the join; primary-key lookup is `find?`), ordered by `fecha` descending. -/
def obtener_transacciones_diario (st : Estado) : List FilaDiario :=
  ordenarPor (fun a b => decide (b.fecha ≤ a.fecha))
    (st.transacciones.filterMap (fun t =>
      match st.cuentas.find? (fun c => c.id = t.debito),
            st.cuentas.find? (fun c => c.id = t.credito) with
      | some cd, some cc =>
          some ⟨t.id, t.fecha, t.descripcion, t.monto, cd.nombre, cc.nombre,
                t.refDoc, t.refBanco⟩
      | _, _ => none))

/-- The value record of the `saldos` dictionary built by `calcular_saldos`. -/
structure InfoSaldo where
  nombre : String
  tipo : String
  saldo : ℚ
  deriving Repr, DecidableEq

/-- One step of the SQL `GROUP BY` aggregation: add `v` to the group of key
`k`, creating the group if absent. -/
def insertAdd : List (Nat × ℚ) → Nat → ℚ → List (Nat × ℚ)
  | [], k, v => [(k, v)]
  | (k2, v2) :: rest, k, v =>
      if k2 = k then (k2, v2 + v) :: rest else (k2, v2) :: insertAdd rest k v

/-- `SELECT key, SUM(monto) FROM Transacciones GROUP BY key`. -/
def sumaPorGrupo (key : Transaccion → Nat) (ts : List Transaccion) : List (Nat × ℚ) :=
  ts.foldl (fun acc t => insertAdd acc (key t) t.monto) []

/-- Python `dict.get(id, 0.0)` over the grouped sums. -/
def lookup0 (m : List (Nat × ℚ)) (k : Nat) : ℚ :=
  match m.find? (fun p => p.1 = k) with
  | some p => p.2
  | none => 0

/-- `ContabilidadApp.calcular_saldos`: every account of the registry, with
`saldo = total débitos − total créditos` taken from the two grouped sums
(missing group ↦ 0.0). -/
def calcular_saldos (st : Estado) : List (Nat × InfoSaldo) :=
  let debitos := sumaPorGrupo (fun t => t.debito) st.transacciones
  let creditos := sumaPorGrupo (fun t => t.credito) st.transacciones
  st.cuentas.map (fun c =>
    (c.id, ⟨c.nombre, c.tipo, lookup0 debitos c.id - lookup0 creditos c.id⟩))

/-- `ContabilidadApp.obtener_movimientos_cuenta`: the transactions touching
the account, ordered by `fecha` ascending. -/
def obtener_movimientos_cuenta (st : Estado) (cuenta_id : Nat) : List Transaccion :=
  ordenarPor (fun a b => decide (a.fecha ≤ b.fecha))
    (st.transacciones.filter (fun t => t.debito = cuenta_id || t.credito = cuenta_id))

/-- Result record of `calcular_estado_resultados`. -/
structure EstadoResultados where
  ingresos_totales : ℚ
  gastos_totales : ℚ
  utilidad_perdida_neta : ℚ
  deriving Repr, DecidableEq

/-- The accumulation loop of `calcular_estado_resultados`: `INGRESO` adds
`abs(saldo)`, `GASTO` adds the raw `saldo`. -/
def erLoop : List (Nat × InfoSaldo) → ℚ → ℚ → ℚ × ℚ
  | [], ing, gas => (ing, gas)
  | e :: r, ing, gas =>
      if e.2.tipo = "INGRESO" then erLoop r (ing + |e.2.saldo|) gas
      else if e.2.tipo = "GASTO" then erLoop r ing (gas + e.2.saldo)
      else erLoop r ing gas

/-- `ContabilidadApp.calcular_estado_resultados`. -/
def calcular_estado_resultados (st : Estado) : EstadoResultados :=
  let p := erLoop (calcular_saldos st) 0 0
  ⟨p.1, p.2, p.1 - p.2⟩

/-- Result record of `calcular_balance_general`. -/
structure BalanceGeneral where
  activo : ℚ
  pasivo : ℚ
  capital : ℚ
  utilidad_neta : ℚ
  pasivo_mas_capital_ajustado : ℚ
  deriving Repr, DecidableEq

/-- The accumulation loop of `calcular_balance_general`: `ACTIVO` adds the
raw `saldo`, `PASIVO` and `CAPITAL` add `abs(saldo)`. -/
def bgLoop : List (Nat × InfoSaldo) → ℚ → ℚ → ℚ → ℚ × ℚ × ℚ
  | [], a, p, c => (a, p, c)
  | e :: r, a, p, c =>
      if e.2.tipo = "ACTIVO" then bgLoop r (a + e.2.saldo) p c
      else if e.2.tipo = "PASIVO" then bgLoop r a (p + |e.2.saldo|) c
      else if e.2.tipo = "CAPITAL" then bgLoop r a p (c + |e.2.saldo|)
      else bgLoop r a p c

/-- `ContabilidadApp.calcular_balance_general`:
`total_capital_ajustado = capital + utilidad` and
`pasivo_mas_capital_ajustado = pasivo + total_capital_ajustado`. -/
def calcular_balance_general (st : Estado) : BalanceGeneral :=
  let t := bgLoop (calcular_saldos st) 0 0 0
  let u := (calcular_estado_resultados st).utilidad_perdida_neta
  ⟨t.1, t.2.1, t.2.2, u, t.2.1 + (t.2.2 + u)⟩

/-- The `Cuadre: SI/NO` flag of `ContabilidadGUI.actualizar_balance_general`
(line 1492): `abs(activo − pasivo_mas_capital_ajustado) < 0.01`. -/
def cuadre_balance_general (st : Estado) : Bool :=
  let datos := calcular_balance_general st
  decide (|datos.activo - datos.pasivo_mas_capital_ajustado| < 1 / 100)

/-- A row of the trial-balance table (`Cuenta, Tipo, Débito, Crédito`). -/
structure FilaBalance where
  nombre : String
  tipo : String
  debito : ℚ
  credito : ℚ
  deriving Repr, DecidableEq

/-- Result of `ContabilidadGUI.actualizar_balance_comp`: the displayed rows,
the two totals and the `Cuadre` flag. -/
structure BalanceComp where
  filas : List FilaBalance
  total_debitos : ℚ
  total_creditos : ℚ
  cuadre : Bool
  deriving Repr, DecidableEq

/-- The row/total accumulation loop of `actualizar_balance_comp` (the same
accumulation appears verbatim in `exportar_balance_pdf`): a positive saldo
is displayed and totalled as débito, a negative one as `abs(saldo)` in
crédito. -/
def bcLoop : List (Nat × InfoSaldo) → List FilaBalance → ℚ → ℚ →
    List FilaBalance × ℚ × ℚ
  | [], filas, d, c => (filas, d, c)
  | e :: r, filas, d, c =>
      let s := e.2.saldo
      if 0 < s then
        bcLoop r (filas ++ [⟨e.2.nombre, e.2.tipo, s, 0⟩]) (d + s) c
      else if s < 0 then
        bcLoop r (filas ++ [⟨e.2.nombre, e.2.tipo, 0, |s|⟩]) d (c + |s|)
      else
        bcLoop r (filas ++ [⟨e.2.nombre, e.2.tipo, 0, 0⟩]) d c

/-- `ContabilidadGUI.actualizar_balance_comp`: keep only the accounts with
`abs(saldo) > 0.009`, accumulate the two columns, and set
`Cuadre = (abs(total débito − total crédito) < 0.01)`. -/
def actualizar_balance_comp (st : Estado) : BalanceComp :=
  let conSaldo := (calcular_saldos st).filter (fun e => decide (9 / 1000 < |e.2.saldo|))
  let t := bcLoop conSaldo [] 0 0
  ⟨t.1, t.2.1, t.2.2, decide (|t.2.1 - t.2.2| < 1 / 100)⟩

/-- A row of the per-account ledger view (`mayor_tree`). -/
structure FilaMayor where
  fecha : Nat
  descripcion : String
  monto_debito : ℚ
  monto_credito : ℚ
  saldo_acumulado : ℚ
  deriving Repr, DecidableEq

/-- The movement loop of `actualizar_mayor_cuenta_seleccionada`: running
balance accumulates `crédito − débito` for natural-credit account types and
`débito − crédito` otherwise. -/
def mayorLoop (cuenta_id : Nat) (es_saldo_acreedor : Bool) :
    List Transaccion → ℚ → List FilaMayor
  | [], _ => []
  | t :: r, saldo =>
      let monto_debito := if t.debito = cuenta_id then t.monto else 0
      let monto_credito := if t.credito = cuenta_id then t.monto else 0
      let saldo2 :=
        if es_saldo_acreedor then saldo + (monto_credito - monto_debito)
        else saldo + (monto_debito - monto_credito)
      ⟨t.fecha, t.descripcion, monto_debito, monto_credito, saldo2⟩ ::
        mayorLoop cuenta_id es_saldo_acreedor r saldo2

/-- `ContabilidadGUI.actualizar_mayor_cuenta_seleccionada`: look the account
up in `calcular_saldos` for its type (the GUI guarantees the account exists;
a missing account yields no rows), determine the natural side, and walk the
movements accumulating from 0. -/
def actualizar_mayor_cuenta_seleccionada (st : Estado) (cuenta_id : Nat) :
    List FilaMayor :=
  match (calcular_saldos st).find? (fun e => e.1 = cuenta_id) with
  | none => []
  | some e =>
      mayorLoop cuenta_id (tipos_saldo_acreedor.contains e.2.tipo)
        (obtener_movimientos_cuenta st cuenta_id) 0

/-- A row of the spreadsheet read by `importar_transacciones_excel`, after
pandas parsing: `monto = none` stands for a missing (`pd.isna`) or
non-numeric `MONTO` cell (both raise `ValueError` in the source), and the
optional references are `none` when the column is absent or the cell is
`NaN`. -/
structure FilaExcel where
  descripcion : String
  monto : Option ℚ
  cuenta_debito : String
  cuenta_credito : String
  ref_doc : Option String
  ref_banco : Option String
  deriving Repr, DecidableEq

/-- The row loop of `importar_transacciones_excel`: per-row validation in
source order (MONTO parse, débito lookup, crédito lookup, positivity), a
failed row is skipped with an error message `Fila (index+2): ...`, an
admitted row is inserted.  Python's falsy test `if not debito_id` is the
test against `0` after `dict.get` (`none` ↦ `0`; real ids are ≥ 1). -/
def importarLoop (mapa : String → Option Nat) (fecha : Nat) :
    List FilaExcel → Nat → Estado → Nat → List String → Estado × Nat × List String
  | [], _, st, importadas, errores => (st, importadas, errores)
  | f :: r, idx, st, importadas, errores =>
    match f.monto with
    | none =>
        importarLoop mapa fecha r (idx + 1) st importadas
          (errores ++ ["Fila " ++ toString (idx + 2) ++ ": Error en el formato del Monto (debe ser numérico)."])
    | some monto =>
        let debito_nombre := pyUpper (pyStrip f.cuenta_debito)
        let credito_nombre := pyUpper (pyStrip f.cuenta_credito)
        if (mapa debito_nombre).getD 0 = 0 then
          importarLoop mapa fecha r (idx + 1) st importadas
            (errores ++ ["Fila " ++ toString (idx + 2) ++ ": Cuenta de Débito \x27" ++ debito_nombre ++ "\x27 no existe."])
        else if (mapa credito_nombre).getD 0 = 0 then
          importarLoop mapa fecha r (idx + 1) st importadas
            (errores ++ ["Fila " ++ toString (idx + 2) ++ ": Cuenta de Crédito \x27" ++ credito_nombre ++ "\x27 no existe."])
        else if monto ≤ 0 then
          importarLoop mapa fecha r (idx + 1) st importadas
            (errores ++ ["Fila " ++ toString (idx + 2) ++ ": Monto debe ser positivo."])
        else
          importarLoop mapa fecha r (idx + 1)
            { st with
                transacciones := st.transacciones ++
                  [⟨st.nextTransId, fecha, pyStrip f.descripcion,
                    (mapa debito_nombre).getD 0, (mapa credito_nombre).getD 0, monto,
                    f.ref_doc.map pyStrip, f.ref_banco.map pyStrip⟩],
                nextTransId := st.nextTransId + 1 }
            (importadas + 1) errores

/-- Result of `importar_transacciones_excel`: the final state, the overall
flag, the admitted count, the full error list, the detail shown in the
message (`errores[:10]`) and the summarized overflow (`len(errores) - 10`). -/
structure ResultadoImportacion where
  estado : Estado
  exito : Bool
  importadas : Nat
  errores : List String
  detalle : List String
  excedentes : Nat
  deriving Repr, DecidableEq

/-- `ContabilidadApp.importar_transacciones_excel` after the file has been
parsed into rows: run the row loop (one `commit` at the end covers every
insert performed), then report failure with the capped error detail when
any row errored, success otherwise. -/
def importar_transacciones_excel (st : Estado) (fecha : Nat) (filas : List FilaExcel) :
    ResultadoImportacion :=
  let r := importarLoop (nombre_a_id st) fecha filas 0 st 0 []
  if r.2.2.isEmpty then
    ⟨r.1, true, r.2.1, r.2.2, [], 0⟩
  else
    ⟨r.1, false, r.2.1, r.2.2, r.2.2.take 10, r.2.2.length - 10⟩

/-! ### Specification-side definitions

The following definitions transcribe the wording of the specification (not
the code); the claims compare the code embeddings above against them. -/

/-- Spec wording: the sum of `amount` over the entries whose `key` leg is
the given account id. -/
def sumaMontosFiltrada (key : Transaccion → Nat) (k : Nat) (ts : List Transaccion) : ℚ :=
  ((ts.filter (fun t => key t = k)).map Transaccion.monto).sum

/-- Spec wording (`computeBalances`): `netBalance = sumDebit − sumCredit`. -/
def saldoNetoSpec (ts : List Transaccion) (k : Nat) : ℚ :=
  sumaMontosFiltrada Transaccion.debito k ts - sumaMontosFiltrada Transaccion.credito k ts

/-- Spec wording: raw sum of `netBalance` over the accounts of one type. -/
def sumaSaldosTipo (tipo : String) (l : List (Nat × InfoSaldo)) : ℚ :=
  ((l.filter (fun e => e.2.tipo = tipo)).map (fun e => e.2.saldo)).sum

/-- Spec wording: sum of `abs(netBalance)` over the accounts of one type. -/
def sumaAbsSaldosTipo (tipo : String) (l : List (Nat × InfoSaldo)) : ℚ :=
  ((l.filter (fun e => e.2.tipo = tipo)).map (fun e => |e.2.saldo|)).sum

/-- Spec wording (`runningLedger`): the per-movement contribution to the
running balance, `creditAmount − debitAmount` on the natural credit side
and `debitAmount − creditAmount` otherwise. -/
def deltaMayor (cuenta_id : Nat) (es_saldo_acreedor : Bool) (t : Transaccion) : ℚ :=
  let monto_debito := if t.debito = cuenta_id then t.monto else 0
  let monto_credito := if t.credito = cuenta_id then t.monto else 0
  if es_saldo_acreedor then monto_credito - monto_debito
  else monto_debito - monto_credito

/-- Spec wording (§4.4): a spreadsheet row is admissible when its amount
parses, both account names resolve, and the amount is positive. -/
def filaValida (mapa : String → Option Nat) (f : FilaExcel) : Bool :=
  match f.monto with
  | none => false
  | some monto =>
      ¬((mapa (pyUpper (pyStrip f.cuenta_debito))).getD 0 = 0) &&
      ¬((mapa (pyUpper (pyStrip f.cuenta_credito))).getD 0 = 0) &&
      0 < monto

/-! ### Reachability predicates -/

/-- The states reachable from `st` through successful `registrar_transaccion`
calls only (claim C1's reachability). -/
inductive SoloRegistros : Estado → Estado → Prop where
  | refl (st : Estado) : SoloRegistros st st
  | paso {st st2 : Estado} (fecha : Nat) (descripcion : String) (d c : Nat) (m : ℚ)
      (rd rb : String) :
      SoloRegistros st st2 →
      (registrar_transaccion st2 fecha descripcion d c m rd rb).2.1 = true →
      SoloRegistros st (registrar_transaccion st2 fecha descripcion d c m rd rb).1

/-- The states reachable from `st` through any sequence of successful
operations (claim C2's reachability: `crear_cuenta`, `registrar_transaccion`,
`eliminar_transaccion`, `eliminar_cuenta`). -/
inductive Alcanzable : Estado → Estado → Prop where
  | refl (st : Estado) : Alcanzable st st
  | crear {st st2 : Estado} (nombre tipo : String) :
      Alcanzable st st2 →
      (crear_cuenta st2 nombre tipo).2.1 = true →
      Alcanzable st (crear_cuenta st2 nombre tipo).1
  | registrar {st st2 : Estado} (fecha : Nat) (descripcion : String) (d c : Nat) (m : ℚ)
      (rd rb : String) :
      Alcanzable st st2 →
      (registrar_transaccion st2 fecha descripcion d c m rd rb).2.1 = true →
      Alcanzable st (registrar_transaccion st2 fecha descripcion d c m rd rb).1
  | elimTransaccion {st st2 : Estado} (transaccion_id : Nat) :
      Alcanzable st st2 →
      (eliminar_transaccion st2 transaccion_id).2.1 = true →
      Alcanzable st (eliminar_transaccion st2 transaccion_id).1
  | elimCuenta {st st2 : Estado} (cuenta_id : Nat) :
      Alcanzable st st2 →
      (eliminar_cuenta st2 cuenta_id).2.1 = true →
      Alcanzable st (eliminar_cuenta st2 cuenta_id).1

/-- The empty database right after `inicializar_db`. -/
def estadoInicial : Estado := ⟨[], [], 1, 1⟩

/-! ### Concrete states used by the counterexamples and witnesses -/

/-- Registry for the C1 counterexample: a cash account and three payable
accounts. -/
def estC1x0 : Estado :=
  ⟨[⟨1, "CAJA", "ACTIVO"⟩, ⟨2, "P1", "PASIVO"⟩, ⟨3, "P2", "PASIVO"⟩, ⟨4, "P3", "PASIVO"⟩],
    [], 5, 1⟩

/-- C1 counterexample state: three successful sub-cent entries (0.009 each)
leave CAJA at 0.027 and each PASIVO at −0.009; the epsilon filter then keeps
only CAJA. -/
def estC1x : Estado :=
  (registrar_transaccion
    (registrar_transaccion
      (registrar_transaccion estC1x0 1 ("a") 1 2 (9 / 1000) ("") ("")).1
      2 ("b") 1 3 (9 / 1000) ("") ("")).1
    3 ("c") 1 4 (9 / 1000) ("") ("")).1

/-- Registry for the C1 witness. -/
def estC1w0 : Estado := ⟨[⟨1, "CAJA", "ACTIVO"⟩, ⟨2, "VENTAS", "INGRESO"⟩], [], 3, 1⟩

/-- C1 witness state: one sale of 100 recorded against the registry. -/
def estC1w : Estado := (registrar_transaccion estC1w0 1 ("venta") 1 2 100 ("") ("")).1

/-- C2 counterexample state: create CAJA (ACTIVO) and PRESTAMO (PASIVO),
then pay 50 against the loan (débito PRESTAMO, crédito CAJA) with no prior
loan balance — a valid operation that drives the PASIVO account onto its
unnatural debit side. -/
def estC2x : Estado :=
  (registrar_transaccion
    (crear_cuenta (crear_cuenta estadoInicial ("CAJA") ("ACTIVO")).1 ("PRESTAMO") ("PASIVO")).1
    1 ("pago prestamo") 2 1 50 ("") ("")).1

/-- C2 witness state: create CAJA (ACTIVO) and APORTES (CAPITAL), then record
a 1000 capital contribution (débito CAJA, crédito APORTES). -/
def estC2w : Estado :=
  (registrar_transaccion
    (crear_cuenta (crear_cuenta estadoInicial ("CAJA") ("ACTIVO")).1 ("APORTES") ("CAPITAL")).1
    1 ("aporte inicial") 1 2 1000 ("") ("")).1

/-- State for the C3, C5 and C8 witnesses: cash, sales and rent accounts with
a 100 sale and a 40 rent payment. -/
def estC3w : Estado :=
  ⟨[⟨1, "CAJA", "ACTIVO"⟩, ⟨2, "VENTAS", "INGRESO"⟩, ⟨3, "RENTA", "GASTO"⟩],
    [⟨1, 1, "venta", 1, 2, 100, none, none⟩, ⟨2, 2, "renta", 3, 1, 40, none, none⟩],
    4, 3⟩

/-- State for the C4 failing input: a registry holding only account 1. -/
def estC4 : Estado := ⟨[⟨1, "CAJA", "ACTIVO"⟩], [], 2, 1⟩

/-! ## Lemmas about the grouped aggregation of `calcular_saldos` -/

theorem lookup0_insertAdd (l : List (Nat × ℚ)) (k1 k : Nat) (v : ℚ) :
    lookup0 (insertAdd l k1 v) k = lookup0 l k + (if k1 = k then v else 0) := by
  induction l with
  | nil =>
      by_cases h : k1 = k <;> simp [insertAdd, lookup0, List.find?, h]
  | cons hd tl ih =>
      obtain ⟨k2, v2⟩ := hd
      by_cases h21 : k2 = k1
      · subst h21
        by_cases h2k : k2 = k
        · subst h2k
          simp [insertAdd, lookup0, List.find?, add_assoc, add_comm v2 v]
        · simp [insertAdd, lookup0, List.find?, h2k]
      · by_cases h2k : k2 = k
        · have h1k : ¬ k1 = k := fun h => h21 (h2k.trans h.symm)
          simp only [insertAdd, if_neg h21]
          simp [lookup0, List.find?, h2k, h1k]
        · simp [insertAdd, lookup0, List.find?, h21, h2k] at ih ⊢
          exact ih

theorem sumaMontosFiltrada_nil (key : Transaccion → Nat) (k : Nat) :
    sumaMontosFiltrada key k [] = 0 := by
  simp [sumaMontosFiltrada]

theorem sumaMontosFiltrada_cons (key : Transaccion → Nat) (k : Nat)
    (t : Transaccion) (ts : List Transaccion) :
    sumaMontosFiltrada key k (t :: ts)
      = (if key t = k then t.monto else 0) + sumaMontosFiltrada key k ts := by
  by_cases h : key t = k <;> simp [sumaMontosFiltrada, List.filter_cons, h]

theorem lookup0_foldl_insertAdd (key : Transaccion → Nat) (ts : List Transaccion)
    (acc : List (Nat × ℚ)) (k : Nat) :
    lookup0 (ts.foldl (fun a t => insertAdd a (key t) t.monto) acc) k
      = lookup0 acc k + sumaMontosFiltrada key k ts := by
  induction ts generalizing acc with
  | nil => simp [sumaMontosFiltrada]
  | cons t ts ih =>
      rw [List.foldl_cons, ih, lookup0_insertAdd, sumaMontosFiltrada_cons]
      ring

theorem lookup0_sumaPorGrupo (key : Transaccion → Nat) (ts : List Transaccion) (k : Nat) :
    lookup0 (sumaPorGrupo key ts) k = sumaMontosFiltrada key k ts := by
  rw [sumaPorGrupo, lookup0_foldl_insertAdd]
  simp [lookup0, List.find?]

/-- `calcular_saldos` agrees pointwise with the specification formula
`netBalance = sumDebit − sumCredit`. -/
theorem calcular_saldos_eq (st : Estado) :
    calcular_saldos st
      = st.cuentas.map (fun c =>
          (c.id, ⟨c.nombre, c.tipo, saldoNetoSpec st.transacciones c.id⟩)) := by
  unfold calcular_saldos saldoNetoSpec
  refine List.map_congr_left (fun c _ => ?_)
  rw [lookup0_sumaPorGrupo, lookup0_sumaPorGrupo]

/-! ## Summation lemmas for the report invariants -/

theorem suma_map_add {α : Type} (l : List α) (f g : α → ℚ) :
    (l.map (fun x => f x + g x)).sum = (l.map f).sum + (l.map g).sum := by
  induction l with
  | nil => simp
  | cons x l ih => simp [ih]; ring

theorem suma_map_sub {α : Type} (l : List α) (f g : α → ℚ) :
    (l.map (fun x => f x - g x)).sum = (l.map f).sum - (l.map g).sum := by
  induction l with
  | nil => simp
  | cons x l ih => simp [ih]; ring

theorem suma_indicador_cero (l : List Cuenta) (k : Nat) (m : ℚ)
    (h : ∀ c ∈ l, ¬ k = c.id) :
    (l.map (fun c => if k = c.id then m else 0)).sum = 0 := by
  induction l with
  | nil => simp
  | cons c l ih =>
      have hc := h c (List.mem_cons_self c l)
      simp [hc, ih (fun c2 hc2 => h c2 (List.mem_cons_of_mem c hc2))]

theorem suma_indicador (l : List Cuenta) (k : Nat) (m : ℚ)
    (hnd : (l.map Cuenta.id).Nodup) (hex : ∃ c ∈ l, c.id = k) :
    (l.map (fun c => if k = c.id then m else 0)).sum = m := by
  induction l with
  | nil => simp at hex
  | cons c l ih =>
      rw [List.map_cons, List.nodup_cons] at hnd
      by_cases hck : k = c.id
      · have hrest : ∀ c2 ∈ l, ¬ k = c2.id := by
          intro c2 hc2 hk2
          exact hnd.1 (by rw [← hck, hk2]; exact List.mem_map_of_mem Cuenta.id hc2)
        rw [List.map_cons, List.sum_cons, if_pos hck, suma_indicador_cero l k m hrest, add_zero]
      · have hex2 : ∃ c2 ∈ l, c2.id = k := by
          obtain ⟨c2, hc2, hk2⟩ := hex
          rcases List.mem_cons.1 hc2 with h | h
          · exact absurd (h ▸ hk2).symm hck
          · exact ⟨c2, h, hk2⟩
        simp [hck, ih hnd.2 hex2]

theorem suma_sumaMontosFiltrada (cuentas : List Cuenta) (ts : List Transaccion)
    (key : Transaccion → Nat)
    (hnd : (cuentas.map Cuenta.id).Nodup)
    (hkey : ∀ t ∈ ts, ∃ c ∈ cuentas, c.id = key t) :
    (cuentas.map (fun c => sumaMontosFiltrada key c.id ts)).sum
      = (ts.map Transaccion.monto).sum := by
  induction ts with
  | nil => simp [sumaMontosFiltrada]
  | cons t ts ih =>
      have hrec := ih (fun t2 ht2 => hkey t2 (List.mem_cons_of_mem t ht2))
      calc (cuentas.map (fun c => sumaMontosFiltrada key c.id (t :: ts))).sum
          = (cuentas.map (fun c =>
              (if key t = c.id then t.monto else 0) + sumaMontosFiltrada key c.id ts)).sum := by
            refine congrArg List.sum (List.map_congr_left (fun c _ => ?_))
            rw [sumaMontosFiltrada_cons]
        _ = (cuentas.map (fun c => if key t = c.id then t.monto else 0)).sum
              + (cuentas.map (fun c => sumaMontosFiltrada key c.id ts)).sum :=
            suma_map_add cuentas _ _
        _ = t.monto + (ts.map Transaccion.monto).sum := by
            rw [suma_indicador cuentas (key t) t.monto hnd (hkey t (List.mem_cons_self t ts)), hrec]
        _ = ((t :: ts).map Transaccion.monto).sum := by simp

/-- Double-entry balance by construction: as long as every journal entry
references registered accounts (and account ids are unique, as the primary
key guarantees), the net balances of `calcular_saldos` sum to zero. -/
theorem suma_saldoNetoSpec_cero (cuentas : List Cuenta) (ts : List Transaccion)
    (hnd : (cuentas.map Cuenta.id).Nodup)
    (hlegs : ∀ t ∈ ts, (∃ c ∈ cuentas, c.id = t.debito) ∧ (∃ c ∈ cuentas, c.id = t.credito)) :
    (cuentas.map (fun c => saldoNetoSpec ts c.id)).sum = 0 := by
  unfold saldoNetoSpec
  rw [suma_map_sub,
    suma_sumaMontosFiltrada cuentas ts _ hnd (fun t ht => (hlegs t ht).1),
    suma_sumaMontosFiltrada cuentas ts _ hnd (fun t ht => (hlegs t ht).2)]
  ring

/-! ## Lemmas about the report accumulation loops -/

/-- Each step of the trial-balance loop moves the displayed saldo into
exactly one column, so the running difference of the totals accumulates the
raw saldo. -/
theorem bcLoop_diferencia (l : List (Nat × InfoSaldo)) :
    ∀ (filas : List FilaBalance) (d c : ℚ),
      (bcLoop l filas d c).2.1 - (bcLoop l filas d c).2.2
        = d - c + (l.map (fun e => e.2.saldo)).sum := by
  induction l with
  | nil => intro filas d c; simp [bcLoop]
  | cons e l ih =>
      intro filas d c
      by_cases hpos : 0 < e.2.saldo
      · rw [List.map_cons, List.sum_cons]
        simp only [bcLoop, if_pos hpos]
        rw [ih]; ring
      · by_cases hneg : e.2.saldo < 0
        · rw [List.map_cons, List.sum_cons]
          simp only [bcLoop, if_neg hpos, if_pos hneg]
          rw [ih, abs_of_neg hneg]; ring
        · have hcero : e.2.saldo = 0 := le_antisymm (not_lt.1 hpos) (not_lt.1 hneg)
          rw [List.map_cons, List.sum_cons]
          simp only [bcLoop, if_neg hpos, if_neg hneg]
          rw [ih, hcero]; ring

/-- Dropping the entries the epsilon filter removes does not change the
saldo sum, provided each removed entry has saldo 0. -/
theorem suma_filtrada_saldos (l : List (Nat × InfoSaldo)) (p : Nat × InfoSaldo → Bool)
    (h : ∀ e ∈ l, p e = false → e.2.saldo = 0) :
    ((l.filter p).map (fun e => e.2.saldo)).sum = (l.map (fun e => e.2.saldo)).sum := by
  induction l with
  | nil => simp
  | cons e l ih =>
      have hrec := ih (fun e2 he2 => h e2 (List.mem_cons_of_mem e he2))
      cases hp : p e with
      | true => simp [List.filter_cons, hp, hrec]
      | false => simp [List.filter_cons, hp, hrec, h e (List.mem_cons_self e l) hp]

/-- The income-statement loop computes the spec sums: `abs` over INGRESO,
raw over GASTO. -/
theorem erLoop_eq (l : List (Nat × InfoSaldo)) :
    ∀ (ing gas : ℚ),
      erLoop l ing gas
        = (ing + sumaAbsSaldosTipo "INGRESO" l, gas + sumaSaldosTipo "GASTO" l) := by
  induction l with
  | nil => intro ing gas; simp [erLoop, sumaAbsSaldosTipo, sumaSaldosTipo]
  | cons e l ih =>
      intro ing gas
      by_cases hi : e.2.tipo = "INGRESO"
      · have hg : ¬ e.2.tipo = "GASTO" := by rw [hi]; decide
        simp only [erLoop, if_pos hi, ih]
        simp [sumaAbsSaldosTipo, sumaSaldosTipo, List.filter_cons, hi, hg, add_assoc,
          add_comm |e.2.saldo|]
      · by_cases hg : e.2.tipo = "GASTO"
        · simp only [erLoop, if_neg hi, if_pos hg, ih]
          simp [sumaAbsSaldosTipo, sumaSaldosTipo, List.filter_cons, hi, hg, add_assoc,
            add_comm e.2.saldo]
        · simp only [erLoop, if_neg hi, if_neg hg, ih]
          simp [sumaAbsSaldosTipo, sumaSaldosTipo, List.filter_cons, hi, hg]

/-- The balance-sheet loop computes the spec sums: raw over ACTIVO, `abs`
over PASIVO and CAPITAL. -/
theorem bgLoop_eq (l : List (Nat × InfoSaldo)) :
    ∀ (a p c : ℚ),
      bgLoop l a p c
        = (a + sumaSaldosTipo "ACTIVO" l,
           p + sumaAbsSaldosTipo "PASIVO" l,
           c + sumaAbsSaldosTipo "CAPITAL" l) := by
  induction l with
  | nil => intro a p c; simp [bgLoop, sumaAbsSaldosTipo, sumaSaldosTipo]
  | cons e l ih =>
      intro a p c
      by_cases ha : e.2.tipo = "ACTIVO"
      · have hp : ¬ e.2.tipo = "PASIVO" := by rw [ha]; decide
        have hc : ¬ e.2.tipo = "CAPITAL" := by rw [ha]; decide
        simp only [bgLoop, if_pos ha, ih]
        simp [sumaAbsSaldosTipo, sumaSaldosTipo, List.filter_cons, ha, hp, hc, add_assoc,
          add_comm e.2.saldo]
      · by_cases hp : e.2.tipo = "PASIVO"
        · have hc : ¬ e.2.tipo = "CAPITAL" := by rw [hp]; decide
          simp only [bgLoop, if_neg ha, if_pos hp, ih]
          simp [sumaAbsSaldosTipo, sumaSaldosTipo, List.filter_cons, ha, hp, hc, add_assoc,
            add_comm |e.2.saldo|]
        · by_cases hc : e.2.tipo = "CAPITAL"
          · simp only [bgLoop, if_neg ha, if_neg hp, if_pos hc, ih]
            simp [sumaAbsSaldosTipo, sumaSaldosTipo, List.filter_cons, ha, hp, hc, add_assoc,
              add_comm |e.2.saldo|]
          · simp only [bgLoop, if_neg ha, if_neg hp, if_neg hc, ih]
            simp [sumaAbsSaldosTipo, sumaSaldosTipo, List.filter_cons, ha, hp, hc]

/-- On the natural credit side (`saldo ≤ 0`), summing `abs(saldo)` is the
negated raw sum. -/
theorem sumaAbs_eq_neg (tipo : String) (l : List (Nat × InfoSaldo))
    (h : ∀ e ∈ l, e.2.tipo = tipo → e.2.saldo ≤ 0) :
    sumaAbsSaldosTipo tipo l = - sumaSaldosTipo tipo l := by
  induction l with
  | nil => simp [sumaAbsSaldosTipo, sumaSaldosTipo]
  | cons e l ih =>
      have hrec := ih (fun e2 he2 => h e2 (List.mem_cons_of_mem e he2))
      by_cases ht : e.2.tipo = tipo
      · have hle := h e (List.mem_cons_self e l) ht
        simp [sumaAbsSaldosTipo, sumaSaldosTipo, List.filter_cons, ht, abs_of_nonpos hle] at hrec ⊢
        rw [hrec]; ring
      · simp [sumaAbsSaldosTipo, sumaSaldosTipo, List.filter_cons, ht] at hrec ⊢
        exact hrec

/-- When every account carries one of the five types, the raw saldo sum
splits into the five per-type sums. -/
theorem suma_particion_tipos (l : List (Nat × InfoSaldo))
    (h : ∀ e ∈ l, e.2.tipo ∈ tipos_cuenta) :
    (l.map (fun e => e.2.saldo)).sum
      = sumaSaldosTipo "ACTIVO" l + sumaSaldosTipo "PASIVO" l + sumaSaldosTipo "CAPITAL" l
        + sumaSaldosTipo "INGRESO" l + sumaSaldosTipo "GASTO" l := by
  induction l with
  | nil => simp [sumaSaldosTipo]
  | cons e l ih =>
      have hrec := ih (fun e2 he2 => h e2 (List.mem_cons_of_mem e he2))
      have he := h e (List.mem_cons_self e l)
      simp only [tipos_cuenta, List.mem_cons, List.mem_singleton, List.not_mem_nil, or_false] at he
      rcases he with ht | ht | ht | ht | ht <;>
        simp [sumaSaldosTipo, List.filter_cons, ht, hrec] <;> ring

/-! ## Claim C3 -/

/-- Claim C3: `calcular_saldos` returns, for every account of the registry,
the net balance `sum of amounts where it is the debit leg − sum of amounts
where it is the credit leg`, and net balance 0 for an account referenced by
no journal entry. -/
theorem c3_saldos (st : Estado) (c : Cuenta) (hc : c ∈ st.cuentas) :
    (c.id, InfoSaldo.mk c.nombre c.tipo
        (sumaMontosFiltrada Transaccion.debito c.id st.transacciones
          - sumaMontosFiltrada Transaccion.credito c.id st.transacciones))
      ∈ calcular_saldos st
    ∧ ((∀ t ∈ st.transacciones, t.debito ≠ c.id ∧ t.credito ≠ c.id) →
        (c.id, InfoSaldo.mk c.nombre c.tipo 0) ∈ calcular_saldos st) := by
  constructor
  · rw [calcular_saldos_eq]
    exact List.mem_map_of_mem _ hc
  · intro h
    have hdeb : sumaMontosFiltrada Transaccion.debito c.id st.transacciones = 0 := by
      unfold sumaMontosFiltrada
      have : st.transacciones.filter (fun t => Transaccion.debito t = c.id) = [] := by
        refine List.filter_eq_nil_iff.2 (fun t ht => ?_)
        simp [(h t ht).1]
      rw [this]; simp
    have hcred : sumaMontosFiltrada Transaccion.credito c.id st.transacciones = 0 := by
      unfold sumaMontosFiltrada
      have : st.transacciones.filter (fun t => Transaccion.credito t = c.id) = [] := by
        refine List.filter_eq_nil_iff.2 (fun t ht => ?_)
        simp [(h t ht).2]
      rw [this]; simp
    have hz : saldoNetoSpec st.transacciones c.id = 0 := by
      unfold saldoNetoSpec; rw [hdeb, hcred]; ring
    rw [calcular_saldos_eq]
    have hm := List.mem_map_of_mem
      (fun c => (c.id, InfoSaldo.mk c.nombre c.tipo (saldoNetoSpec st.transacciones c.id))) hc
    simpa [hz] using hm

/-- Witness for C3 at the cash account of the sample ledger: CAJA is
debited 100 and credited 40, so its net balance entry is 100 − 40. -/
theorem c3_testigo :
    ((⟨1, "CAJA", "ACTIVO"⟩ : Cuenta) ∈ estC3w.cuentas)
    ∧ ((1, InfoSaldo.mk "CAJA" "ACTIVO"
          (sumaMontosFiltrada Transaccion.debito 1 estC3w.transacciones
            - sumaMontosFiltrada Transaccion.credito 1 estC3w.transacciones))
        ∈ calcular_saldos estC3w
      ∧ ((∀ t ∈ estC3w.transacciones, t.debito ≠ 1 ∧ t.credito ≠ 1) →
          (1, InfoSaldo.mk "CAJA" "ACTIVO" 0) ∈ calcular_saldos estC3w)) :=
  ⟨by decide, c3_saldos estC3w ⟨1, "CAJA", "ACTIVO"⟩ (by decide)⟩

/-! ## Claim C9 -/

/-- Claim C9: the income statement sums `abs(netBalance)` over INGRESO
accounts but the raw `netBalance` over GASTO accounts, and the net result is
their difference — exactly the asymmetric per-type sign handling of the
source. -/
theorem c9_estado_resultados (st : Estado) :
    calcular_estado_resultados st
      = ⟨sumaAbsSaldosTipo "INGRESO" (calcular_saldos st),
         sumaSaldosTipo "GASTO" (calcular_saldos st),
         sumaAbsSaldosTipo "INGRESO" (calcular_saldos st)
           - sumaSaldosTipo "GASTO" (calcular_saldos st)⟩ := by
  simp [calcular_estado_resultados, erLoop_eq]

/-- The saldo sum over the whole `calcular_saldos` report vanishes whenever
the journal only references registered accounts. -/
theorem suma_saldos_cero (st : Estado)
    (hids : (st.cuentas.map Cuenta.id).Nodup)
    (hlegs : ∀ t ∈ st.transacciones,
      (∃ c ∈ st.cuentas, c.id = t.debito) ∧ (∃ c ∈ st.cuentas, c.id = t.credito)) :
    ((calcular_saldos st).map (fun e => e.2.saldo)).sum = 0 := by
  rw [calcular_saldos_eq]
  have hcomp : ((st.cuentas.map (fun c =>
        (c.id, InfoSaldo.mk c.nombre c.tipo (saldoNetoSpec st.transacciones c.id)))).map
          (fun e => e.2.saldo))
      = st.cuentas.map (fun c => saldoNetoSpec st.transacciones c.id) := by
    simp
  rw [hcomp]
  exact suma_saldoNetoSpec_cero st.cuentas st.transacciones hids hlegs

/-! ## Claim C1 -/

/-- Claim C1, counterexample to the literal statement: starting from an
empty journal over the registry `estC1x0`, three successful `recordEntry`
calls of 0.009 each (all between registered accounts) leave CAJA at 0.027
and three PASIVO accounts at −0.009; the `> 0.009` filter drops the three
credit balances, so the trial balance shows 0.027 against 0 and the
`Cuadre` flag is NO. -/
theorem c1_contraejemplo :
    ¬ (∀ st0 st : Estado, st0.transacciones = [] → SoloRegistros st0 st →
        |(actualizar_balance_comp st).total_debitos
          - (actualizar_balance_comp st).total_creditos| < 1 / 100
        ∧ (actualizar_balance_comp st).cuadre = true) := by
  intro h
  have hreach : SoloRegistros estC1x0 estC1x :=
    SoloRegistros.paso 3 ("c") 1 4 (9 / 1000) ("") ("")
      (SoloRegistros.paso 2 ("b") 1 3 (9 / 1000) ("") ("")
        (SoloRegistros.paso 1 ("a") 1 2 (9 / 1000) ("") ("")
          (SoloRegistros.refl estC1x0) (by decide))
        (by decide))
      (by decide)
  exact absurd (h estC1x0 estC1x rfl hreach).2 (by decide)

/-- Claim C1 as amended: for a ledger reachable from an empty journal
through successful `recordEntry` calls, in which additionally every entry
references registered accounts (SQLite would enforce this had foreign-key
enforcement been on), account ids are unique (the primary key), and no
account carries a nonzero net balance at or below the 0.009 epsilon, the
trial-balance column totals are exactly equal and the `Cuadre` flag is SI. -/
theorem c1_enmendado (st0 st : Estado)
    (hvacio : st0.transacciones = [])
    (hreach : SoloRegistros st0 st)
    (hids : (st.cuentas.map Cuenta.id).Nodup)
    (hlegs : ∀ t ∈ st.transacciones,
      (∃ c ∈ st.cuentas, c.id = t.debito) ∧ (∃ c ∈ st.cuentas, c.id = t.credito))
    (heps : ∀ e ∈ calcular_saldos st, e.2.saldo = 0 ∨ 9 / 1000 < |e.2.saldo|) :
    (actualizar_balance_comp st).total_debitos = (actualizar_balance_comp st).total_creditos
    ∧ (actualizar_balance_comp st).cuadre = true := by
  have hzero : ∀ e ∈ calcular_saldos st,
      (fun e => decide ((9 : ℚ) / 1000 < |e.2.saldo|)) e = false → e.2.saldo = 0 := by
    intro e he hfalse
    rcases heps e he with h0 | hbig
    · exact h0
    · simp only [decide_eq_false_iff_not] at hfalse
      exact absurd hbig hfalse
  have hdif :
      (bcLoop ((calcular_saldos st).filter
          (fun e => decide ((9 : ℚ) / 1000 < |e.2.saldo|))) [] 0 0).2.1
        - (bcLoop ((calcular_saldos st).filter
          (fun e => decide ((9 : ℚ) / 1000 < |e.2.saldo|))) [] 0 0).2.2 = 0 := by
    rw [bcLoop_diferencia, suma_filtrada_saldos _ _ hzero,
      suma_saldos_cero st hids hlegs]
    ring
  have htd : (actualizar_balance_comp st).total_debitos
      = (bcLoop ((calcular_saldos st).filter
          (fun e => decide ((9 : ℚ) / 1000 < |e.2.saldo|))) [] 0 0).2.1 := rfl
  have htc : (actualizar_balance_comp st).total_creditos
      = (bcLoop ((calcular_saldos st).filter
          (fun e => decide ((9 : ℚ) / 1000 < |e.2.saldo|))) [] 0 0).2.2 := rfl
  have heq : (actualizar_balance_comp st).total_debitos
      = (actualizar_balance_comp st).total_creditos := by
    rw [htd, htc]
    exact sub_eq_zero.mp hdif
  refine ⟨heq, ?_⟩
  have hcuadre : (actualizar_balance_comp st).cuadre
      = decide (|(actualizar_balance_comp st).total_debitos
          - (actualizar_balance_comp st).total_creditos| < 1 / 100) := rfl
  rw [hcuadre, heq]
  norm_num

/-- Witness for the amended C1: one recorded sale of 100 between CAJA and
VENTAS balances the trial balance at 100 = 100 with flag SI. -/
theorem c1_testigo :
    estC1w0.transacciones = []
    ∧ SoloRegistros estC1w0 estC1w
    ∧ (estC1w.cuentas.map Cuenta.id).Nodup
    ∧ (∀ t ∈ estC1w.transacciones,
        (∃ c ∈ estC1w.cuentas, c.id = t.debito) ∧ (∃ c ∈ estC1w.cuentas, c.id = t.credito))
    ∧ (∀ e ∈ calcular_saldos estC1w, e.2.saldo = 0 ∨ 9 / 1000 < |e.2.saldo|)
    ∧ ((actualizar_balance_comp estC1w).total_debitos
          = (actualizar_balance_comp estC1w).total_creditos
        ∧ (actualizar_balance_comp estC1w).cuadre = true) := by
  have hreach : SoloRegistros estC1w0 estC1w :=
    SoloRegistros.paso 1 ("venta") 1 2 100 ("") ("")
      (SoloRegistros.refl estC1w0) (by decide)
  exact ⟨rfl, hreach, by decide, by decide, by decide,
    c1_enmendado estC1w0 estC1w rfl hreach (by decide) (by decide) (by decide)⟩

/-! ## Claim C2 -/

/-- Claim C2, counterexample to the literal statement: from the empty
database, create CAJA (ACTIVO) and PRESTAMO (PASIVO) and record a 50 loan
payment (débito PRESTAMO, crédito CAJA) — a valid operation sequence.  The
PASIVO account then carries a +50 debit-side balance, whose `abs()` makes
the balance sheet read activo = −50 against pasivo+capital ajustado = 50. -/
theorem c2_contraejemplo :
    ¬ (∀ st : Estado, Alcanzable estadoInicial st →
        |(calcular_balance_general st).activo
          - (calcular_balance_general st).pasivo_mas_capital_ajustado| < 1 / 100) := by
  intro h
  have hreach : Alcanzable estadoInicial estC2x :=
    Alcanzable.registrar 1 ("pago prestamo") 2 1 50 ("") ("")
      (Alcanzable.crear ("PRESTAMO") ("PASIVO")
        (Alcanzable.crear ("CAJA") ("ACTIVO") (Alcanzable.refl estadoInicial) (by decide))
        (by decide))
      (by decide)
  exact absurd (h estC2x hreach) (by decide)

/-- Claim C2 as amended: for a reachable ledger state in which every entry
references registered accounts, account ids are unique, every account type
is one of the five, and every PASIVO, CAPITAL and INGRESO account sits on
its natural credit side (`saldo ≤ 0`), the balance sheet satisfies the
accounting equation exactly: activo = pasivo + capital + resultado neto,
and the GUI `Cuadre` flag is SI. -/
theorem c2_enmendado (st : Estado)
    (hreach : Alcanzable estadoInicial st)
    (hids : (st.cuentas.map Cuenta.id).Nodup)
    (htipos : ∀ e ∈ calcular_saldos st, e.2.tipo ∈ tipos_cuenta)
    (hlegs : ∀ t ∈ st.transacciones,
      (∃ c ∈ st.cuentas, c.id = t.debito) ∧ (∃ c ∈ st.cuentas, c.id = t.credito))
    (hacreedor : ∀ e ∈ calcular_saldos st,
      e.2.tipo ∈ tipos_saldo_acreedor → e.2.saldo ≤ 0) :
    (calcular_balance_general st).activo
      = (calcular_balance_general st).pasivo_mas_capital_ajustado
    ∧ cuadre_balance_general st = true := by
  have ha : (calcular_balance_general st).activo
      = sumaSaldosTipo "ACTIVO" (calcular_saldos st) := by
    simp [calcular_balance_general, bgLoop_eq]
  have hpmca : (calcular_balance_general st).pasivo_mas_capital_ajustado
      = sumaAbsSaldosTipo "PASIVO" (calcular_saldos st)
        + (sumaAbsSaldosTipo "CAPITAL" (calcular_saldos st)
          + (sumaAbsSaldosTipo "INGRESO" (calcular_saldos st)
            - sumaSaldosTipo "GASTO" (calcular_saldos st))) := by
    simp [calcular_balance_general, bgLoop_eq, calcular_estado_resultados, erLoop_eq]
  have hP : sumaAbsSaldosTipo "PASIVO" (calcular_saldos st)
      = - sumaSaldosTipo "PASIVO" (calcular_saldos st) :=
    sumaAbs_eq_neg _ _ (fun e he ht => hacreedor e he (by rw [ht]; decide))
  have hC : sumaAbsSaldosTipo "CAPITAL" (calcular_saldos st)
      = - sumaSaldosTipo "CAPITAL" (calcular_saldos st) :=
    sumaAbs_eq_neg _ _ (fun e he ht => hacreedor e he (by rw [ht]; decide))
  have hI : sumaAbsSaldosTipo "INGRESO" (calcular_saldos st)
      = - sumaSaldosTipo "INGRESO" (calcular_saldos st) :=
    sumaAbs_eq_neg _ _ (fun e he ht => hacreedor e he (by rw [ht]; decide))
  have hsum0 := suma_saldos_cero st hids hlegs
  have hpart := suma_particion_tipos (calcular_saldos st) htipos
  have heq : (calcular_balance_general st).activo
      = (calcular_balance_general st).pasivo_mas_capital_ajustado := by
    rw [ha, hpmca, hP, hC, hI]
    rw [hpart] at hsum0
    linarith
  refine ⟨heq, ?_⟩
  have hcuadre : cuadre_balance_general st
      = decide (|(calcular_balance_general st).activo
          - (calcular_balance_general st).pasivo_mas_capital_ajustado| < 1 / 100) := rfl
  rw [hcuadre, heq]
  norm_num

/-- Witness for the amended C2: create CAJA and APORTES and record a 1000
capital contribution; the equation reads 1000 = 0 + 1000 + 0 with flag SI. -/
theorem c2_testigo :
    Alcanzable estadoInicial estC2w
    ∧ (estC2w.cuentas.map Cuenta.id).Nodup
    ∧ (∀ e ∈ calcular_saldos estC2w, e.2.tipo ∈ tipos_cuenta)
    ∧ (∀ t ∈ estC2w.transacciones,
        (∃ c ∈ estC2w.cuentas, c.id = t.debito) ∧ (∃ c ∈ estC2w.cuentas, c.id = t.credito))
    ∧ (∀ e ∈ calcular_saldos estC2w, e.2.tipo ∈ tipos_saldo_acreedor → e.2.saldo ≤ 0)
    ∧ ((calcular_balance_general estC2w).activo
          = (calcular_balance_general estC2w).pasivo_mas_capital_ajustado
        ∧ cuadre_balance_general estC2w = true) := by
  have hreach : Alcanzable estadoInicial estC2w :=
    Alcanzable.registrar 1 ("aporte inicial") 1 2 1000 ("") ("")
      (Alcanzable.crear ("APORTES") ("CAPITAL")
        (Alcanzable.crear ("CAJA") ("ACTIVO") (Alcanzable.refl estadoInicial) (by decide))
        (by decide))
      (by decide)
  exact ⟨hreach, by decide, by decide, by decide, by decide,
    c2_enmendado estC2w hreach (by decide) (by decide) (by decide) (by decide)⟩

/-! ## Claim C4 -/

/-- Claim C4, evaluation at the failing input: with only account 1
registered, `registrar_transaccion` against the nonexistent credit account 2
reports success and stores the entry — the source never enables SQLite
foreign-key enforcement, so the `FOREIGN KEY` clauses its error handler
expects to trip (`"ID de cuenta inválido"`) are never checked. -/
theorem c4_evaluacion :
    (registrar_transaccion estC4 5 ("compra") 1 2 100 ("") ("")).2.1 = true
    ∧ (registrar_transaccion estC4 5 ("compra") 1 2 100 ("") ("")).1.transacciones
        = [⟨1, 5, "compra", 1, 2, 100, none, none⟩]
    ∧ ¬ (∃ c ∈ estC4.cuentas, c.id = 2) := by
  decide

/-! ## Membership lemmas for the sorted views -/

theorem mem_insertarOrdenado {α : Type} (le : α → α → Bool) (x a : α) (l : List α) :
    a ∈ insertarOrdenado le x l ↔ a = x ∨ a ∈ l := by
  induction l with
  | nil => simp [insertarOrdenado]
  | cons y r ih =>
      by_cases h : le x y <;> simp [insertarOrdenado, h, ih] <;> tauto

theorem mem_ordenarPor {α : Type} (le : α → α → Bool) (a : α) (l : List α) :
    a ∈ ordenarPor le l ↔ a ∈ l := by
  induction l with
  | nil => simp [ordenarPor]
  | cons y r ih => simp [ordenarPor, mem_insertarOrdenado, ih]

/-! ## Claim C5 -/

/-- Claim C5: `registrar_transaccion` rejects equal debit/credit accounts
and non-positive amounts leaving the journal untouched; for distinct
registered accounts and a positive amount it succeeds, appends the entry
with trimmed description and empty-string references stored absent, and the
entry appears in the journal view. -/
theorem c5_registro (st : Estado) (fecha : Nat) (descripcion : String)
    (d c : Nat) (m : ℚ) (rd rb : String) :
    (d = c → registrar_transaccion st fecha descripcion d c m rd rb
        = (st, false, some "Error: Las cuentas de Débito y Crédito no pueden ser las mismas."))
    ∧ (d ≠ c → m ≤ 0 → registrar_transaccion st fecha descripcion d c m rd rb
        = (st, false, some "Error: El monto de la transacción debe ser positivo."))
    ∧ (d ≠ c → 0 < m →
        (registrar_transaccion st fecha descripcion d c m rd rb).2.1 = true
        ∧ (registrar_transaccion st fecha descripcion d c m rd rb).1.transacciones
            = st.transacciones ++
              [⟨st.nextTransId, fecha, pyStrip descripcion, d, c, m,
                refOpcional rd, refOpcional rb⟩]
        ∧ (pyStrip rd = "" → refOpcional rd = none)
        ∧ (pyStrip rb = "" → refOpcional rb = none)
        ∧ ((∃ ca ∈ st.cuentas, ca.id = d) → (∃ cb ∈ st.cuentas, cb.id = c) →
            ∃ fila ∈ obtener_transacciones_diario
                (registrar_transaccion st fecha descripcion d c m rd rb).1,
              fila.id = st.nextTransId)) := by
  refine ⟨fun hdc => ?_, fun hdc hm => ?_, fun hdc hm => ?_⟩
  · simp only [registrar_transaccion, if_pos hdc]
  · simp only [registrar_transaccion, if_neg hdc, if_pos hm]
  · have hreg : registrar_transaccion st fecha descripcion d c m rd rb
        = ({ st with
              transacciones := st.transacciones ++
                [⟨st.nextTransId, fecha, pyStrip descripcion, d, c, m,
                  refOpcional rd, refOpcional rb⟩],
              nextTransId := st.nextTransId + 1 },
            true, none) := by
      simp only [registrar_transaccion, if_neg hdc, if_neg (not_le.2 hm)]
    refine ⟨by rw [hreg], by rw [hreg], fun h => by simp [refOpcional, h],
      fun h => by simp [refOpcional, h], fun hd hc => ?_⟩
    obtain ⟨ca, hca, hcaid⟩ := hd
    obtain ⟨cb, hcb, hcbid⟩ := hc
    have hfd : ((registrar_transaccion st fecha descripcion d c m rd rb).1.cuentas.find?
        (fun cu => cu.id = d)).isSome := by
      rw [hreg]
      exact List.find?_isSome.2 ⟨ca, hca, by simp [hcaid]⟩
    have hfc : ((registrar_transaccion st fecha descripcion d c m rd rb).1.cuentas.find?
        (fun cu => cu.id = c)).isSome := by
      rw [hreg]
      exact List.find?_isSome.2 ⟨cb, hcb, by simp [hcbid]⟩
    obtain ⟨cd2, hcd2⟩ := Option.isSome_iff_exists.1 hfd
    obtain ⟨cc2, hcc2⟩ := Option.isSome_iff_exists.1 hfc
    refine ⟨⟨st.nextTransId, fecha, pyStrip descripcion, m, cd2.nombre, cc2.nombre,
        refOpcional rd, refOpcional rb⟩, ?_, rfl⟩
    rw [obtener_transacciones_diario, mem_ordenarPor]
    refine List.mem_filterMap.2
      ⟨⟨st.nextTransId, fecha, pyStrip descripcion, d, c, m,
          refOpcional rd, refOpcional rb⟩, ?_, ?_⟩
    · rw [hreg]
      exact List.mem_append_right _ (List.mem_singleton.2 rfl)
    · simp only [hcd2, hcc2]

/-- Witness for C5: the three branches exercised on a concrete ledger — a
same-account entry, a zero-amount entry, and a successful entry between
registered accounts (with whitespace to trim and empty references). -/
theorem c5_testigo :
    (registrar_transaccion estC4 1 ("x") 1 1 5 ("") ("")
        = (estC4, false, some "Error: Las cuentas de Débito y Crédito no pueden ser las mismas."))
    ∧ (registrar_transaccion estC3w 1 ("x") 1 2 0 ("") ("")
        = (estC3w, false, some "Error: El monto de la transacción debe ser positivo."))
    ∧ ((registrar_transaccion estC3w 7 (" cobro ") 1 2 25 (" ") ("")).2.1 = true
        ∧ (registrar_transaccion estC3w 7 (" cobro ") 1 2 25 (" ") ("")).1.transacciones
            = estC3w.transacciones ++
              [⟨estC3w.nextTransId, 7, pyStrip (" cobro "), 1, 2, 25,
                refOpcional (" "), refOpcional ("")⟩]
        ∧ (pyStrip (" ") = "" → refOpcional (" ") = none)
        ∧ (pyStrip ("") = "" → refOpcional ("") = none)
        ∧ ((∃ ca ∈ estC3w.cuentas, ca.id = 1) → (∃ cb ∈ estC3w.cuentas, cb.id = 2) →
            ∃ fila ∈ obtener_transacciones_diario
                (registrar_transaccion estC3w 7 (" cobro ") 1 2 25 (" ") ("")).1,
              fila.id = estC3w.nextTransId)) :=
  ⟨(c5_registro estC4 1 ("x") 1 1 5 ("") ("")).1 rfl,
   (c5_registro estC3w 1 ("x") 1 2 0 ("") ("")).2.1 (by decide) (by norm_num),
   (c5_registro estC3w 7 (" cobro ") 1 2 25 (" ") ("")).2.2 (by decide) (by norm_num)⟩

/-! ## Claim C6 -/

/-- Claim C6: `eliminar_cuenta` fails and changes nothing whenever some
journal entry references the account on either leg; otherwise it succeeds,
removes exactly the rows with that id from the registry, and leaves the
journal untouched. -/
theorem c6_eliminar_cuenta (st : Estado) (cuenta_id : Nat) :
    ((∃ t ∈ st.transacciones, t.debito = cuenta_id ∨ t.credito = cuenta_id) →
        eliminar_cuenta st cuenta_id
          = (st, false, "Error: No se puede eliminar la cuenta porque tiene transacciones registradas."))
    ∧ ((∀ t ∈ st.transacciones, t.debito ≠ cuenta_id ∧ t.credito ≠ cuenta_id) →
        (eliminar_cuenta st cuenta_id).2.1 = true
        ∧ (eliminar_cuenta st cuenta_id).1.transacciones = st.transacciones
        ∧ (∀ cu ∈ (eliminar_cuenta st cuenta_id).1.cuentas, cu.id ≠ cuenta_id)
        ∧ (∀ cu ∈ st.cuentas, cu.id ≠ cuenta_id →
            cu ∈ (eliminar_cuenta st cuenta_id).1.cuentas)) := by
  constructor
  · intro h
    obtain ⟨t, ht, hleg⟩ := h
    have hany : st.transacciones.any
        (fun t => t.debito = cuenta_id || t.credito = cuenta_id) = true := by
      refine List.any_eq_true.2 ⟨t, ht, ?_⟩
      rcases hleg with h | h <;> simp [h]
    simp only [eliminar_cuenta, if_pos hany]
  · intro h
    have hany : st.transacciones.any
        (fun t => t.debito = cuenta_id || t.credito = cuenta_id) = false := by
      refine List.any_eq_false.2 (fun t ht => ?_)
      simp [(h t ht).1, (h t ht).2]
    have helim : eliminar_cuenta st cuenta_id
        = ({ st with cuentas := st.cuentas.filter (fun cu => cu.id != cuenta_id) },
            true, "Cuenta eliminada con éxito.") := by
      simp only [eliminar_cuenta, hany, Bool.false_eq_true, if_false]
    refine ⟨by rw [helim], by rw [helim], fun cu hcu => ?_, fun cu hcu hne => ?_⟩
    · rw [helim] at hcu
      have := (List.mem_filter.1 hcu).2
      simpa using this
    · rw [helim]
      exact List.mem_filter.2 ⟨hcu, by simpa using hne⟩

/-- Witness for C6: deleting CAJA (referenced by both entries) fails and
changes nothing; deleting an unreferenced account id succeeds. -/
theorem c6_testigo :
    ((∃ t ∈ estC3w.transacciones, t.debito = 1 ∨ t.credito = 1) ∧
      eliminar_cuenta estC3w 1
        = (estC3w, false, "Error: No se puede eliminar la cuenta porque tiene transacciones registradas."))
    ∧ ((∀ t ∈ estC4.transacciones, t.debito ≠ 1 ∧ t.credito ≠ 1) ∧
        ((eliminar_cuenta estC4 1).2.1 = true
          ∧ (eliminar_cuenta estC4 1).1.transacciones = estC4.transacciones
          ∧ (∀ cu ∈ (eliminar_cuenta estC4 1).1.cuentas, cu.id ≠ 1)
          ∧ (∀ cu ∈ estC4.cuentas, cu.id ≠ 1 → cu ∈ (eliminar_cuenta estC4 1).1.cuentas))) :=
  ⟨⟨by decide, (c6_eliminar_cuenta estC3w 1).1 (by decide)⟩,
   ⟨by decide, (c6_eliminar_cuenta estC4 1).2 (by decide)⟩⟩

/-! ## Claim C7 -/

/-- Claim C7, counterexample to the literal statement: deleting entry 7 from
the empty journal reports success (`DELETE` with no matching row is not an
error in SQLite), whereas the claim requires a NotFound failure. -/
theorem c7_contraejemplo :
    ¬ (∀ (st : Estado) (transaccion_id : Nat),
        (∀ t ∈ st.transacciones, t.id ≠ transaccion_id) →
        (eliminar_transaccion st transaccion_id).2.1 = false) := by
  intro h
  exact absurd (h estadoInicial 7 (by decide)) (by decide)

/-- Claim C7 as amended: `eliminar_transaccion` always reports success; it
removes exactly the entries carrying the given id (hence removes the entry
when present, with no dependency check), and is a no-op on the whole state
when no entry carries the id. -/
theorem c7_enmendado (st : Estado) (transaccion_id : Nat) :
    (eliminar_transaccion st transaccion_id).2.1 = true
    ∧ (eliminar_transaccion st transaccion_id).1.cuentas = st.cuentas
    ∧ (eliminar_transaccion st transaccion_id).1.transacciones
        = st.transacciones.filter (fun t => t.id != transaccion_id)
    ∧ ((∀ t ∈ st.transacciones, t.id ≠ transaccion_id) →
        (eliminar_transaccion st transaccion_id).1 = st) := by
  refine ⟨rfl, rfl, rfl, fun h => ?_⟩
  have hfil : st.transacciones.filter (fun t => t.id != transaccion_id)
      = st.transacciones :=
    List.filter_eq_self.2 (fun t ht => by simpa using h t ht)
  show ({ st with
      transacciones := st.transacciones.filter (fun t => t.id != transaccion_id) } : Estado) = st
  rw [hfil]

/-- Witness for the amended C7: deleting entry 2 of the sample ledger
succeeds and leaves exactly entry 1; the state is untouched for an unused
id. -/
theorem c7_testigo :
    ((eliminar_transaccion estC3w 2).2.1 = true
      ∧ (eliminar_transaccion estC3w 2).1.cuentas = estC3w.cuentas
      ∧ (eliminar_transaccion estC3w 2).1.transacciones
          = estC3w.transacciones.filter (fun t => t.id != 2)
      ∧ ((∀ t ∈ estC3w.transacciones, t.id ≠ 2) → (eliminar_transaccion estC3w 2).1 = estC3w))
    ∧ (eliminar_transaccion estC3w 2).1.transacciones
        = [⟨1, 1, "venta", 1, 2, 100, none, none⟩] :=
  ⟨c7_enmendado estC3w 2, by decide⟩

/-! ## Claim C8 -/

theorem mayorLoop_length (cuenta_id : Nat) (es : Bool) (movs : List Transaccion) :
    ∀ s : ℚ, (mayorLoop cuenta_id es movs s).length = movs.length := by
  induction movs with
  | nil => intro s; rfl
  | cons t r ih => intro s; simp [mayorLoop, ih]

theorem mayorLoop_get (cuenta_id : Nat) (es : Bool) :
    ∀ (movs : List Transaccion) (s : ℚ) (k : Nat)
      (hk : k < (mayorLoop cuenta_id es movs s).length) (hk2 : k < movs.length),
      (mayorLoop cuenta_id es movs s).get ⟨k, hk⟩
        = ⟨(movs.get ⟨k, hk2⟩).fecha, (movs.get ⟨k, hk2⟩).descripcion,
           (if (movs.get ⟨k, hk2⟩).debito = cuenta_id then (movs.get ⟨k, hk2⟩).monto else 0),
           (if (movs.get ⟨k, hk2⟩).credito = cuenta_id then (movs.get ⟨k, hk2⟩).monto else 0),
           s + ((movs.take (k + 1)).map (deltaMayor cuenta_id es)).sum⟩ := by
  intro movs
  induction movs with
  | nil => intro s k hk hk2; exact absurd hk2 (by simp)
  | cons t r ih =>
      intro s k hk hk2
      cases k with
      | zero =>
          cases es <;>
            simp [mayorLoop, deltaMayor, List.get] <;> ring
      | succ k =>
          have hk3 : k < (mayorLoop cuenta_id es r
              (if es then s + ((if t.credito = cuenta_id then t.monto else 0)
                  - (if t.debito = cuenta_id then t.monto else 0))
                else s + ((if t.debito = cuenta_id then t.monto else 0)
                  - (if t.credito = cuenta_id then t.monto else 0)))).length := by
            rw [mayorLoop_length]
            exact Nat.lt_of_succ_lt_succ hk2
          have hk4 : k < r.length := Nat.lt_of_succ_lt_succ hk2
          have hstep := ih (if es then s + ((if t.credito = cuenta_id then t.monto else 0)
                  - (if t.debito = cuenta_id then t.monto else 0))
                else s + ((if t.debito = cuenta_id then t.monto else 0)
                  - (if t.credito = cuenta_id then t.monto else 0))) k hk3 hk4
          cases es <;>
            · simp only [mayorLoop, List.get_cons_succ, List.take_succ_cons, List.map_cons,
                List.sum_cons, deltaMayor] at hstep ⊢
              rw [hstep]
              simp
              ring

/-- Claim C8: the running ledger walks the account movements in ascending
timestamp order; each row shows the entry amount on the leg the account
occupies and accumulates the running balance by the account's natural side
(`crédito − débito` for PASIVO/CAPITAL/INGRESO, `débito − crédito`
otherwise), so the k-th running balance is the sum of the first k+1
contributions. -/
theorem c8_mayor (st : Estado) (cuenta_id : Nat) (e : Nat × InfoSaldo)
    (he : (calcular_saldos st).find? (fun x => x.1 = cuenta_id) = some e) :
    (actualizar_mayor_cuenta_seleccionada st cuenta_id).length
        = (obtener_movimientos_cuenta st cuenta_id).length
    ∧ ∀ (k : Nat) (hk : k < (actualizar_mayor_cuenta_seleccionada st cuenta_id).length)
        (hk2 : k < (obtener_movimientos_cuenta st cuenta_id).length),
        (actualizar_mayor_cuenta_seleccionada st cuenta_id).get ⟨k, hk⟩
          = ⟨((obtener_movimientos_cuenta st cuenta_id).get ⟨k, hk2⟩).fecha,
             ((obtener_movimientos_cuenta st cuenta_id).get ⟨k, hk2⟩).descripcion,
             (if ((obtener_movimientos_cuenta st cuenta_id).get ⟨k, hk2⟩).debito = cuenta_id
                then ((obtener_movimientos_cuenta st cuenta_id).get ⟨k, hk2⟩).monto else 0),
             (if ((obtener_movimientos_cuenta st cuenta_id).get ⟨k, hk2⟩).credito = cuenta_id
                then ((obtener_movimientos_cuenta st cuenta_id).get ⟨k, hk2⟩).monto else 0),
             (((obtener_movimientos_cuenta st cuenta_id).take (k + 1)).map
                (deltaMayor cuenta_id (tipos_saldo_acreedor.contains e.2.tipo))).sum⟩ := by
  have hact : actualizar_mayor_cuenta_seleccionada st cuenta_id
      = mayorLoop cuenta_id (tipos_saldo_acreedor.contains e.2.tipo)
          (obtener_movimientos_cuenta st cuenta_id) 0 := by
    rw [actualizar_mayor_cuenta_seleccionada, he]
  constructor
  · rw [hact, mayorLoop_length]
  · intro k hk hk2
    revert hk
    rw [hact]
    intro hk
    have := mayorLoop_get cuenta_id (tipos_saldo_acreedor.contains e.2.tipo)
      (obtener_movimientos_cuenta st cuenta_id) 0 k hk hk2
    rw [zero_add] at this
    exact this

/-- Witness for C8 at the spec scenario: CAJA (ACTIVO) debited 100 then
credited 40 yields rows (débito 100, crédito 0, saldo 100) then
(débito 0, crédito 40, saldo 60). -/
theorem c8_testigo :
    (calcular_saldos estC3w).find? (fun x => x.1 = 1) = some (1, ⟨"CAJA", "ACTIVO", 60⟩)
    ∧ ((actualizar_mayor_cuenta_seleccionada estC3w 1).length
          = (obtener_movimientos_cuenta estC3w 1).length
        ∧ ∀ (k : Nat) (hk : k < (actualizar_mayor_cuenta_seleccionada estC3w 1).length)
            (hk2 : k < (obtener_movimientos_cuenta estC3w 1).length),
            (actualizar_mayor_cuenta_seleccionada estC3w 1).get ⟨k, hk⟩
              = ⟨((obtener_movimientos_cuenta estC3w 1).get ⟨k, hk2⟩).fecha,
                 ((obtener_movimientos_cuenta estC3w 1).get ⟨k, hk2⟩).descripcion,
                 (if ((obtener_movimientos_cuenta estC3w 1).get ⟨k, hk2⟩).debito = 1
                    then ((obtener_movimientos_cuenta estC3w 1).get ⟨k, hk2⟩).monto else 0),
                 (if ((obtener_movimientos_cuenta estC3w 1).get ⟨k, hk2⟩).credito = 1
                    then ((obtener_movimientos_cuenta estC3w 1).get ⟨k, hk2⟩).monto else 0),
                 (((obtener_movimientos_cuenta estC3w 1).take (k + 1)).map
                    (deltaMayor 1 (tipos_saldo_acreedor.contains
                      ((1, ⟨"CAJA", "ACTIVO", 60⟩) : Nat × InfoSaldo).2.tipo))).sum⟩)
    ∧ actualizar_mayor_cuenta_seleccionada estC3w 1
        = [⟨1, "venta", 100, 0, 100⟩, ⟨2, "renta", 0, 40, 60⟩] :=
  ⟨by decide, c8_mayor estC3w 1 (1, ⟨"CAJA", "ACTIVO", 60⟩) (by decide), by decide⟩

/-! ## Claim C10 -/

/-- Loop invariant of the importer: admitted and errored rows partition the
batch by `filaValida`, the registry is untouched, and the journal grows by
exactly the admitted rows. -/
theorem importarLoop_spec (mapa : String → Option Nat) (fecha : Nat) :
    ∀ (filas : List FilaExcel) (idx : Nat) (st : Estado) (imp : Nat) (errs : List String),
      (importarLoop mapa fecha filas idx st imp errs).2.1
          = imp + (filas.filter (filaValida mapa)).length
      ∧ (importarLoop mapa fecha filas idx st imp errs).2.2.length
          = errs.length + (filas.filter (fun f => ! filaValida mapa f)).length
      ∧ (importarLoop mapa fecha filas idx st imp errs).1.cuentas = st.cuentas
      ∧ ∃ nuevos : List Transaccion,
          (importarLoop mapa fecha filas idx st imp errs).1.transacciones
            = st.transacciones ++ nuevos
          ∧ nuevos.length = (filas.filter (filaValida mapa)).length := by
  intro filas
  induction filas with
  | nil =>
      intro idx st imp errs
      refine ⟨by simp [importarLoop], by simp [importarLoop], rfl, [], by simp [importarLoop], by simp⟩
  | cons f r ih =>
      intro idx st imp errs
      match hm : f.monto with
      | none =>
          have hval : filaValida mapa f = false := by simp [filaValida, hm]
          have hrec := ih (idx + 1) st imp
            (errs ++ ["Fila " ++ toString (idx + 2) ++ ": Error en el formato del Monto (debe ser numérico)."])
          simp only [importarLoop, hm] at *
          refine ⟨?_, ?_, hrec.2.2.1, ?_⟩
          · simp [List.filter_cons, hval, hrec.1]
          · simp [List.filter_cons, hval, hrec.2.1]
            omega
          · obtain ⟨nuevos, hn1, hn2⟩ := hrec.2.2.2
            exact ⟨nuevos, hn1, by simp [List.filter_cons, hval, hn2]⟩
      | some m =>
          by_cases hdeb : (mapa (pyUpper (pyStrip f.cuenta_debito))).getD 0 = 0
          · have hval : filaValida mapa f = false := by simp [filaValida, hm, hdeb]
            have hrec := ih (idx + 1) st imp
              (errs ++ ["Fila " ++ toString (idx + 2) ++ ": Cuenta de Débito \x27"
                ++ pyUpper (pyStrip f.cuenta_debito) ++ "\x27 no existe."])
            simp only [importarLoop, hm, hdeb, if_true, if_pos] at *
            refine ⟨?_, ?_, hrec.2.2.1, ?_⟩
            · simp [List.filter_cons, hval, hrec.1]
            · simp [List.filter_cons, hval, hrec.2.1]
              omega
            · obtain ⟨nuevos, hn1, hn2⟩ := hrec.2.2.2
              exact ⟨nuevos, hn1, by simp [List.filter_cons, hval, hn2]⟩
          · by_cases hcred : (mapa (pyUpper (pyStrip f.cuenta_credito))).getD 0 = 0
            · have hval : filaValida mapa f = false := by simp [filaValida, hm, hcred]
              have hrec := ih (idx + 1) st imp
                (errs ++ ["Fila " ++ toString (idx + 2) ++ ": Cuenta de Crédito \x27"
                  ++ pyUpper (pyStrip f.cuenta_credito) ++ "\x27 no existe."])
              simp only [importarLoop, hm, hdeb, hcred, if_false, if_true, if_pos] at *
              refine ⟨?_, ?_, hrec.2.2.1, ?_⟩
              · simp [List.filter_cons, hval, hrec.1]
              · simp [List.filter_cons, hval, hrec.2.1]
                omega
              · obtain ⟨nuevos, hn1, hn2⟩ := hrec.2.2.2
                exact ⟨nuevos, hn1, by simp [List.filter_cons, hval, hn2]⟩
            · by_cases hpos : m ≤ 0
              · have hval : filaValida mapa f = false := by
                  simp [filaValida, hm, hdeb, hcred, not_lt.2 hpos]
                have hrec := ih (idx + 1) st imp
                  (errs ++ ["Fila " ++ toString (idx + 2) ++ ": Monto debe ser positivo."])
                simp only [importarLoop, hm, hdeb, hcred, hpos, if_false, if_true, if_pos] at *
                refine ⟨?_, ?_, hrec.2.2.1, ?_⟩
                · simp [List.filter_cons, hval, hrec.1]
                · simp [List.filter_cons, hval, hrec.2.1]
                  omega
                · obtain ⟨nuevos, hn1, hn2⟩ := hrec.2.2.2
                  exact ⟨nuevos, hn1, by simp [List.filter_cons, hval, hn2]⟩
              · have hval : filaValida mapa f = true := by
                  simp [filaValida, hm, hdeb, hcred, not_le.1 hpos]
                have hrec := ih (idx + 1)
                  { st with
                      transacciones := st.transacciones ++
                        [⟨st.nextTransId, fecha, pyStrip f.descripcion,
                          (mapa (pyUpper (pyStrip f.cuenta_debito))).getD 0,
                          (mapa (pyUpper (pyStrip f.cuenta_credito))).getD 0, m,
                          f.ref_doc.map pyStrip, f.ref_banco.map pyStrip⟩],
                      nextTransId := st.nextTransId + 1 }
                  (imp + 1) errs
                simp only [importarLoop, hm, hdeb, hcred, hpos, if_false] at *
                obtain ⟨nuevos, hn1, hn2⟩ := hrec.2.2.2
                refine ⟨?_, ?_, hrec.2.2.1, ?_⟩
                · simp [List.filter_cons, hval, hrec.1]
                  omega
                · simp [List.filter_cons, hval, hrec.2.1]
                · refine ⟨⟨st.nextTransId, fecha, pyStrip f.descripcion,
                      (mapa (pyUpper (pyStrip f.cuenta_debito))).getD 0,
                      (mapa (pyUpper (pyStrip f.cuenta_credito))).getD 0, m,
                      f.ref_doc.map pyStrip, f.ref_banco.map pyStrip⟩ :: nuevos, ?_, ?_⟩
                  · simp at hn1
                    simp [hn1]
                  · simp [List.filter_cons, hval, hn2]

/-- Claim C10: the bulk importer commits every admitted row even when other
rows fail, returns the success flag exactly when no row errored, reports
the admitted count, and caps the displayed error details at 10 with an
overflow count for the rest. -/
theorem c10_importar (st : Estado) (fecha : Nat) (filas : List FilaExcel) :
    ((importar_transacciones_excel st fecha filas).exito = true
        ↔ (importar_transacciones_excel st fecha filas).errores = [])
    ∧ (importar_transacciones_excel st fecha filas).importadas
        = (filas.filter (filaValida (nombre_a_id st))).length
    ∧ (importar_transacciones_excel st fecha filas).errores.length
        = (filas.filter (fun f => ! filaValida (nombre_a_id st) f)).length
    ∧ (importar_transacciones_excel st fecha filas).estado.cuentas = st.cuentas
    ∧ (∃ nuevos : List Transaccion,
        (importar_transacciones_excel st fecha filas).estado.transacciones
          = st.transacciones ++ nuevos
        ∧ nuevos.length = (importar_transacciones_excel st fecha filas).importadas)
    ∧ (importar_transacciones_excel st fecha filas).detalle
        = (importar_transacciones_excel st fecha filas).errores.take 10
    ∧ (importar_transacciones_excel st fecha filas).detalle.length ≤ 10
    ∧ (importar_transacciones_excel st fecha filas).excedentes
        = (importar_transacciones_excel st fecha filas).errores.length - 10 := by
  have hspec := importarLoop_spec (nombre_a_id st) fecha filas 0 st 0 []
  by_cases hemp : (importarLoop (nombre_a_id st) fecha filas 0 st 0 []).2.2.isEmpty
  · have hires : importar_transacciones_excel st fecha filas
        = ⟨(importarLoop (nombre_a_id st) fecha filas 0 st 0 []).1, true,
           (importarLoop (nombre_a_id st) fecha filas 0 st 0 []).2.1,
           (importarLoop (nombre_a_id st) fecha filas 0 st 0 []).2.2, [], 0⟩ := by
      simp only [importar_transacciones_excel, hemp, if_true]
    have herr : (importarLoop (nombre_a_id st) fecha filas 0 st 0 []).2.2 = [] :=
      List.isEmpty_iff.1 hemp
    rw [hires]
    refine ⟨by simp [herr], by simpa using hspec.1, by simpa using hspec.2.1, hspec.2.2.1,
      ?_, by simp [herr], by simp, by simp [herr]⟩
    obtain ⟨nuevos, hn1, hn2⟩ := hspec.2.2.2
    exact ⟨nuevos, hn1, by simpa [hspec.1] using hn2⟩
  · have hires : importar_transacciones_excel st fecha filas
        = ⟨(importarLoop (nombre_a_id st) fecha filas 0 st 0 []).1, false,
           (importarLoop (nombre_a_id st) fecha filas 0 st 0 []).2.1,
           (importarLoop (nombre_a_id st) fecha filas 0 st 0 []).2.2,
           (importarLoop (nombre_a_id st) fecha filas 0 st 0 []).2.2.take 10,
           (importarLoop (nombre_a_id st) fecha filas 0 st 0 []).2.2.length - 10⟩ := by
      simp only [importar_transacciones_excel, hemp, if_false, Bool.false_eq_true]
    have herr : (importarLoop (nombre_a_id st) fecha filas 0 st 0 []).2.2 ≠ [] := by
      intro hcon
      rw [hcon] at hemp
      exact hemp rfl
    rw [hires]
    refine ⟨by simp [herr], by simpa using hspec.1, by simpa using hspec.2.1, hspec.2.2.1,
      ?_, by simp, ?_, by simp⟩
    · obtain ⟨nuevos, hn1, hn2⟩ := hspec.2.2.2
      exact ⟨nuevos, hn1, by simpa [hspec.1] using hn2⟩
    · simp

end Contable
